import Mathlib

/-
Verification of the notification-dispatch subsystem of the repository
(src/notifications and src/users) against its natural-language specification.

The embedding below translates the Python source into Lean:
- pure data (src/notifications/models.py, src/users/models.py) becomes
  structures and inductive types;
- NotificationService.send_notification
  (src/notifications/services/notification_service.py) becomes a function
  parameterised by a provider-behaviour oracle and by the set of asyncio
  tasks that had completed when the FIRST_COMPLETED wait returned, which is
  the only scheduler-dependent input of the function;
- the batch status reduction (src/notifications/views.py,
  LastBatchStatusView.get) becomes a total function on optional statuses.
-/

namespace Notifications

/-- Status values of a Notification row (src/notifications/models.py,
class NotificationStatus): pending, sent, delivered, failed, read. -/
inductive NStatus
  | pending
  | sent
  | delivered
  | failed
  | read
deriving DecidableEq, Repr, Fintype

/-- Python truthiness of an optional string: None and the empty string are
falsy, every other string is truthy. -/
def truthyStr : Option String → Bool
  | none => false
  | some s => !s.isEmpty

/-- The user fields the dispatcher reads (src/users/models.py, class User).
Each field is nullable in the model, hence an Option; some of the empty
string models a blank value, which Python treats as falsy. -/
structure User where
  email : Option String
  notification_email : Option String
  phone_number : Option String
  telegram_chat_id : Option String
deriving DecidableEq, Repr

/-- User.get_notification_email (src/users/models.py lines 114-116):
returns notification_email or email, with Python or-semantics, so a null or
blank notification_email falls back to the login email. -/
def User.get_notification_email (u : User) : Option String :=
  if truthyStr u.notification_email then u.notification_email else u.email

/-- The keys of NotificationService.PROVIDERS
(src/notifications/services/notification_service.py lines 19-23). -/
def PROVIDERS : List String := ["email", "sms", "telegram"]

/-- NotificationService.DEFAULT_TIMEOUT, the per-provider timeout default in
seconds (notification_service.py line 26). -/
def DEFAULT_TIMEOUT : Nat := 30

/-- NotificationService.DEFAULT_OVERALL_TIMEOUT, the default bound on all
send attempts together, in seconds (notification_service.py line 27). -/
def DEFAULT_OVERALL_TIMEOUT : Nat := 60

/-- The per-provider timeout actually used by send_notification
(notification_service.py line 65): the provider_timeout keyword argument if
the caller passed one, otherwise DEFAULT_TIMEOUT. This value is then passed
as the asyncio.wait_for timeout of every provider attempt (line 100) and as
the timeout option forwarded to the provider itself (line 92). -/
def provider_timeout_used (provider_timeout_kwarg : Option Nat) : Nat :=
  provider_timeout_kwarg.getD DEFAULT_TIMEOUT

/-- The overall timeout actually used by send_notification
(notification_service.py line 64): the timeout keyword argument if the
caller passed one, otherwise DEFAULT_OVERALL_TIMEOUT. -/
def overall_timeout_used (timeout_kwarg : Option Nat) : Nat :=
  timeout_kwarg.getD DEFAULT_OVERALL_TIMEOUT

/-- NotificationService._get_recipient_for_provider
(notification_service.py lines 160-182), translated clause by clause: the
email channel reads the login email field, the sms channel reads the stored
phone number, the telegram channel reads the chat id; anything else, or a
missing user, resolves to None. -/
def get_recipient_for_provider (user : Option User) (provider_name : String) :
    Option String :=
  match user with
  | none => none
  | some u =>
    if provider_name = "email" then u.email
    else if provider_name = "sms" then u.phone_number
    else if provider_name = "telegram" then u.telegram_chat_id
    else none

/-- Outcome of one provider.send call as run under asyncio.wait_for inside
try_send_with_provider (notification_service.py lines 94-101): the provider
returned True, returned False, the wait_for raised TimeoutError, or the call
raised some other exception. -/
inductive ProviderOutcome
  | success
  | failure
  | timeout
  | error (msg : String)
deriving DecidableEq, Repr

/-- Result value of the inner coroutine try_send_with_provider
(notification_service.py lines 75-111): some (provider_name, recipient) when
the provider is recognized, a truthy recipient resolves, and the provider
call returns True within its timeout; None in every other case, because the
unknown-provider and missing-recipient branches return None and both the
TimeoutError handler and the generic exception handler fall through to the
final return None. -/
def try_send_with_provider (u : User) (outcome : String → ProviderOutcome)
    (provider_name : String) : Option (String × String) :=
  if PROVIDERS.contains provider_name then
    match get_recipient_for_provider (some u) provider_name with
    | none => none
    | some r =>
      if r.isEmpty then none
      else
        match outcome provider_name with
        | ProviderOutcome.success => some (provider_name, r)
        | _ => none
  else none

/-- Whether a task created for a channel reaches the provider.send call
(notification_service.py lines 94-101). Line 116 creates one coroutine per
entry of the priority list and line 120 wraps each in asyncio.create_task
before the wait begins, so every task runs up to its first await: it invokes
provider.send exactly when the channel is recognized and a truthy recipient
resolves, and only afterwards can it time out, fail or be cancelled. -/
def invokes_provider (u : User) (provider_name : String) : Bool :=
  PROVIDERS.contains provider_name &&
    truthyStr (get_recipient_for_provider (some u) provider_name)

/-- One row of the notifications table as manipulated by the dispatcher:
its status, the provider_used and recipient attributes assigned on success
(notification_service.py lines 136-137), and the provider_data JSON map of
the model (src/notifications/models.py lines 61-63), which the service never
writes. -/
structure NotificationRec where
  status : NStatus
  provider_used : Option String
  recipient : Option String
  provider_data : List (String × String)
deriving DecidableEq, Repr

/-- The single row created by send_notification at lines 68-73 as it stands
after the success path (lines 135-138): status sent, with the winning
provider name and recipient assigned. -/
def sent_record (name r : String) : NotificationRec :=
  { status := NStatus.sent, provider_used := some name,
    recipient := some r, provider_data := [] }

/-- The single row created by send_notification as it stands after any of
the failure paths (lines 144-145, 150-151, 156-157): status failed, with no
reason written anywhere. -/
def failed_record : NotificationRec :=
  { status := NStatus.failed, provider_used := none,
    recipient := none, provider_data := [] }

/-- The first successful task result found by the loop over the completed
tasks (notification_service.py lines 130-139): done lists the indices into
the priority list of the tasks that had completed when asyncio.wait
returned, in the order the loop processes them, and the loop returns on the
first truthy result. -/
def first_success (u : User) (outcome : String → ProviderOutcome)
    (prio : List String) (done : List Nat) : Option (String × String) :=
  (done.filterMap (fun i =>
    (prio.get? i).bind (fun n => try_send_with_provider u outcome n))).head?

/-- Observable result of one send_notification call: the returned boolean,
the Notification rows the call created, and the names of the channels whose
provider.send was invoked. -/
structure SendResult where
  ok : Bool
  records : List NotificationRec
  invoked : List String
deriving DecidableEq, Repr

/-- NotificationService.send_notification
(notification_service.py lines 37-158). A None priority defaults to
[telegram, email, sms] (lines 56-57); a missing user returns False with no
record and no provider call (lines 59-61); otherwise one pending row is
created (lines 68-73), one task per priority entry is created and started
(lines 116-123), and when the FIRST_COMPLETED wait returns, the tasks in
done are examined: the first truthy result marks the row sent and returns
True (lines 130-139), otherwise the row is marked failed and False is
returned (lines 144-146); the overall-timeout and unexpected-exception
handlers (lines 148-158) mark the same row failed, which coincides with an
empty done. The parameter done is the scheduler-dependent completed set;
the cancelled tasks (lines 126-127) produce no further effect. -/
def send_notification (user : Option User) (outcome : String → ProviderOutcome)
    (priority : Option (List String)) (done : List Nat) : SendResult :=
  let prio := priority.getD ["telegram", "email", "sms"]
  match user with
  | none => { ok := false, records := [], invoked := [] }
  | some u =>
    let inv := prio.filter (fun n => invokes_provider u n)
    match first_success u outcome prio done with
    | some (name, r) => { ok := true, records := [sent_record name r], invoked := inv }
    | none => { ok := false, records := [failed_record], invoked := inv }

/-- Field names of the Notification model
(src/notifications/models.py lines 32-77), together with the implicit id
primary key Django adds: user, message, status, notification_type,
provider_data, created_at, sent_at. The model declares no properties. -/
def notification_model_fields : List String :=
  ["id", "user", "message", "status", "notification_type",
   "provider_data", "created_at", "sent_at"]

/-- Keyword arguments passed to Notification.objects.create by
send_notification (notification_service.py lines 68-73): user, message,
status, provider_priority. -/
def send_create_kwargs : List String :=
  ["user", "message", "status", "provider_priority"]

/-- Whether the create call raises. Django Model construction raises
TypeError when a keyword argument names neither a field nor a property of
the model; this holds exactly when some create keyword is outside the field
list. The create call sits before the try block of send_notification
(line 68 against line 114), so such a TypeError propagates to the caller. -/
def create_raises_type_error : Bool :=
  !send_create_kwargs.all (fun k => notification_model_fields.contains k)

/-- Right-biased merge modelling Python dict.update: keys of the update
replace existing keys. -/
def dict_update (d upd : List (String × String)) : List (String × String) :=
  d.filter (fun kv => !(upd.map Prod.fst).contains kv.fst) ++ upd

/-- Notification.mark_as_sent (src/notifications/models.py lines 82-88):
sets status to sent unconditionally and merges the given provider data when
truthy. -/
def mark_as_sent (r : NotificationRec)
    (provider_data : Option (List (String × String))) : NotificationRec :=
  { r with
    status := NStatus.sent
    provider_data :=
      match provider_data with
      | none => r.provider_data
      | some d => dict_update r.provider_data d }

/-- Notification.mark_as_delivered (models.py lines 90-93): sets status to
delivered unconditionally. -/
def mark_as_delivered (r : NotificationRec) : NotificationRec :=
  { r with status := NStatus.delivered }

/-- Notification.mark_as_failed (models.py lines 95-100): sets status to
failed unconditionally and records the error message under the error key
when the message is truthy. -/
def mark_as_failed (r : NotificationRec) (error_message : Option String) :
    NotificationRec :=
  { r with
    status := NStatus.failed
    provider_data :=
      if truthyStr error_message then
        dict_update r.provider_data [("error", error_message.getD "")]
      else r.provider_data }

/-- Notification.mark_as_read (models.py lines 102-105): sets status to
read unconditionally. -/
def mark_as_read (r : NotificationRec) : NotificationRec :=
  { r with status := NStatus.read }

/-- NotificationViewSet.mark_as_read (src/notifications/views.py lines
411-421): assigns status read and saves, with no check of the current
status. -/
def viewset_mark_as_read (r : NotificationRec) : NotificationRec :=
  { r with status := NStatus.read }

/-- Transition relation asserted by the specification state machine
(spec section 4.4), written from the claim for comparison with the code:
pending to sent, sent to delivered, sent to read, delivered to read,
pending to failed, and nothing else. -/
def spec_allowed_transition : NStatus → NStatus → Bool
  | NStatus.pending, NStatus.sent => true
  | NStatus.sent, NStatus.delivered => true
  | NStatus.sent, NStatus.read => true
  | NStatus.delivered, NStatus.read => true
  | NStatus.pending, NStatus.failed => true
  | _, _ => false

/-- Status keys produced by the batch status endpoints
(src/notifications/views.py lines 273-292): not_sent, pending, success,
error, and the else-branch value unknown. -/
inductive BatchStatusKey
  | not_sent
  | pending
  | success
  | error
  | unknown
deriving DecidableEq, Repr, Fintype

/-- Reduction of the latest notification for a (user, channel) pair, or
None when no row matched, to a status key, translated from the elif chain
of LastBatchStatusView.get (views.py lines 273-292): no row gives not_sent,
pending gives pending, sent and delivered give success, failed gives error,
and any other status, namely read, falls into the else branch and gives
unknown. -/
def reduce_last_status : Option NStatus → BatchStatusKey
  | none => BatchStatusKey.not_sent
  | some NStatus.pending => BatchStatusKey.pending
  | some NStatus.sent => BatchStatusKey.success
  | some NStatus.delivered => BatchStatusKey.success
  | some NStatus.failed => BatchStatusKey.error
  | some NStatus.read => BatchStatusKey.unknown

/-- The latest status among rows (created_at, status) created at-or-after
started_at, as selected by the query of views.py lines 268-271: filter by
created_at greater-or-equal, order by created_at descending, take the
first. Ties keep the row seen first, matching an unspecified database
order. -/
def latest_status_since (records : List (Nat × NStatus)) (started_at : Nat) :
    Option NStatus :=
  ((records.filter (fun rc => started_at ≤ rc.fst)).foldl
    (fun acc rc =>
      match acc with
      | none => some rc
      | some best => if best.fst < rc.fst then some rc else some best)
    none).map Prod.snd

/-- The any_pending flag (views.py lines 258, 277-280): set exactly when
some (user, channel) cell reduced to the pending key. -/
def any_pending (cells : List (Option NStatus)) : Bool :=
  cells.any (fun s => reduce_last_status s = BatchStatusKey.pending)

/-- Sample user for concrete runs: login email and telegram chat id set,
together with a dedicated notification email and an international phone
number. -/
def sample_user : User :=
  { email := some "login@example.com",
    notification_email := some "notify@example.com",
    phone_number := some "+79001234567",
    telegram_chat_id := some "100500" }

/-- Provider behaviour where every channel succeeds. -/
def all_success_outcome : String → ProviderOutcome :=
  fun _ => ProviderOutcome.success

/-- Provider behaviour where telegram returns False and every other channel
succeeds. -/
def telegram_fails_outcome : String → ProviderOutcome :=
  fun n => if n = "telegram" then ProviderOutcome.failure
           else ProviderOutcome.success

/-- Provider behaviour where every channel exceeds its timeout. -/
def all_timeout_outcome : String → ProviderOutcome :=
  fun _ => ProviderOutcome.timeout

/-- C1: the claim asserts strictly sequential, never concurrent, channel
attempts in which a higher-priority success prevents any lower-priority
provider call. The code instead creates and starts one asyncio task per
channel before a FIRST_COMPLETED wait: at a concrete send with priority
[telegram, email] where every provider succeeds and the telegram task is
the one processed as completed, the call returns True via telegram, yet the
email provider was also invoked. -/
theorem c1_lower_priority_provider_invoked :
    (send_notification (some sample_user) all_success_outcome
      (some ["telegram", "email"]) [0]).ok = true
    ∧ (send_notification (some sample_user) all_success_outcome
      (some ["telegram", "email"]) [0]).invoked = ["telegram", "email"] := by
  constructor
  · rfl
  · rfl

/-- C2: the claim asserts one attempt record per channel tried, so for a
priority list where telegram fails and email then succeeds it requires the
send to return true with exactly two records. The code creates exactly one
Notification row for the whole call: the concrete run returns true with a
single record, refuting the per-channel count. -/
theorem c2_single_record_per_send :
    (send_notification (some sample_user) telegram_fails_outcome
      (some ["telegram", "email"]) [0, 1]).ok = true
    ∧ (send_notification (some sample_user) telegram_fails_outcome
      (some ["telegram", "email"]) [0, 1]).records.length = 1
    ∧ ¬((send_notification (some sample_user) telegram_fails_outcome
      (some ["telegram", "email"]) [0, 1]).records.length = 2) := by
  refine ⟨rfl, rfl, ?_⟩
  decide

/-- C3: the claim asserts that a timed-out channel attempt leaves a failed
record with reason provider timeout and that the next channel is still
attempted. In a concrete run where both channels exceed their timeout, the
code leaves a single per-send record marked failed with an empty
provider_data map: no record carries any reason string, hence none carries
provider timeout, and no per-channel record exists at all. -/
theorem c3_timeout_leaves_no_reason :
    (send_notification (some sample_user) all_timeout_outcome
      (some ["telegram", "email"]) [0, 1]).ok = false
    ∧ (send_notification (some sample_user) all_timeout_outcome
      (some ["telegram", "email"]) [0, 1]).records = [failed_record]
    ∧ ((send_notification (some sample_user) all_timeout_outcome
      (some ["telegram", "email"]) [0, 1]).records.all
        (fun r => r.provider_data.isEmpty)) = true := by
  refine ⟨rfl, rfl, rfl⟩

/-- C4: a send with no user returns False immediately, creates no record
and invokes no provider, for every provider behaviour, priority list and
scheduler interleaving. -/
theorem c4_no_user_no_side_effects (outcome : String → ProviderOutcome)
    (priority : Option (List String)) (done : List Nat) :
    send_notification none outcome priority done
      = { ok := false, records := [], invoked := [] } := rfl

/-- C5 counterexample: for a user with both a notification email and a
login email set and an international phone number, the claim predicts
resolution to the notification email and to the phone number with the
leading plus stripped; the code resolves the email channel to the login
email and the sms channel to the unmodified phone number, even though the
user model accessor prefers the notification email. -/
theorem c5_resolution_counterexample :
    get_recipient_for_provider (some sample_user) "email"
      = some "login@example.com"
    ∧ ¬(get_recipient_for_provider (some sample_user) "email"
      = some "notify@example.com")
    ∧ get_recipient_for_provider (some sample_user) "sms"
      = some "+79001234567"
    ∧ ¬(get_recipient_for_provider (some sample_user) "sms"
      = some "79001234567")
    ∧ sample_user.get_notification_email = some "notify@example.com" := by
  refine ⟨rfl, ?_, rfl, ?_, rfl⟩ <;> decide

/-- C5 amended: recipient resolution returns, for the sms channel, the
stored phone number unchanged with no plus-stripping and no digit
validation, and, for the email channel, always the login email field,
ignoring the notification-email field. -/
theorem c5_resolution_amended (u : User) :
    get_recipient_for_provider (some u) "sms" = u.phone_number
    ∧ get_recipient_for_provider (some u) "email" = u.email := by
  constructor
  · rfl
  · rfl

/-- C6 counterexample: the mark-as-read endpoint moves a failed record to
read, a transition the claimed state machine forbids. -/
theorem c6_failed_to_read_counterexample :
    (viewset_mark_as_read failed_record).status = NStatus.read
    ∧ spec_allowed_transition NStatus.failed NStatus.read = false := by
  decide

/-- C6 amended: every status-mutating operation of the system sets its
target status unconditionally, whatever the current status: mark_as_sent
gives sent, mark_as_delivered gives delivered, mark_as_failed gives failed,
and both mark_as_read and the viewset endpoint give read; the claimed
state machine is not enforced anywhere. -/
theorem c6_unconditional_status_setters (r : NotificationRec)
    (d : Option (List (String × String))) (m : Option String) :
    (mark_as_sent r d).status = NStatus.sent
    ∧ (mark_as_delivered r).status = NStatus.delivered
    ∧ (mark_as_failed r m).status = NStatus.failed
    ∧ (mark_as_read r).status = NStatus.read
    ∧ (viewset_mark_as_read r).status = NStatus.read := by
  refine ⟨rfl, rfl, rfl, rfl, rfl⟩

/-- C7: the claim asserts that nothing but the boolean result ever reaches
the caller of send. The record-creation call passes the keyword
provider_priority, which is not among the fields of the Notification model,
so Django raises TypeError there; the call sits before the try block, so
every send with a user present raises instead of returning a boolean. -/
theorem c7_create_kwargs_mismatch :
    create_raises_type_error = true
    ∧ send_create_kwargs.contains "provider_priority" = true
    ∧ notification_model_fields.contains "provider_priority" = false := by
  decide

/-- C8 counterexample: a latest record in status read reduces to the key
unknown, a fifth value outside the four the claim allows. -/
theorem c8_read_reduces_to_unknown :
    reduce_last_status (some NStatus.read) = BatchStatusKey.unknown
    ∧ ¬(BatchStatusKey.unknown ∈
        [BatchStatusKey.not_sent, BatchStatusKey.pending,
         BatchStatusKey.success, BatchStatusKey.error]) := by
  decide

/-- C8 amended: the status query reduces the latest record per pair to
exactly one of not_sent, pending, success, error, unknown: not_sent when no
record exists, pending for a pending record, success for sent or delivered,
error for failed, unknown for read; and any_pending is true exactly when
some cell reduces to pending. -/
theorem c8_status_reduction_amended :
    (∀ s : Option NStatus,
      (reduce_last_status s = BatchStatusKey.not_sent ↔ s = none)
      ∧ (reduce_last_status s = BatchStatusKey.pending ↔ s = some NStatus.pending)
      ∧ (reduce_last_status s = BatchStatusKey.success
          ↔ (s = some NStatus.sent ∨ s = some NStatus.delivered))
      ∧ (reduce_last_status s = BatchStatusKey.error ↔ s = some NStatus.failed)
      ∧ (reduce_last_status s = BatchStatusKey.unknown ↔ s = some NStatus.read))
    ∧ (∀ cells : List (Option NStatus),
        any_pending cells = true
          ↔ ∃ s ∈ cells, reduce_last_status s = BatchStatusKey.pending) := by
  constructor
  · decide
  · intro cells
    simp [any_pending, List.any_eq_true]

/-- C9 counterexample: with no caller override, the per-channel timeout the
dispatcher uses is 30 seconds, not the claimed 15. -/
theorem c9_default_timeout_counterexample :
    provider_timeout_used none = 30 ∧ ¬(provider_timeout_used none = 15) := by
  decide

/-- C9 amended: when the caller does not override the timeout options, each
provider attempt is run under a per-channel timeout of DEFAULT_TIMEOUT = 30
seconds, and the whole send under DEFAULT_OVERALL_TIMEOUT = 60 seconds. -/
theorem c9_default_timeout_amended :
    provider_timeout_used none = DEFAULT_TIMEOUT
    ∧ DEFAULT_TIMEOUT = 30
    ∧ overall_timeout_used none = DEFAULT_OVERALL_TIMEOUT
    ∧ DEFAULT_OVERALL_TIMEOUT = 60 := by
  decide

/-- C10: every call with a user present that returns creates exactly one
record for the whole call, and that record ends sent exactly when the call
returns true and failed exactly when it returns false, never pending, for
every provider behaviour, priority list and scheduler interleaving. -/
theorem c10_single_terminal_record (u : User)
    (outcome : String → ProviderOutcome) (priority : Option (List String))
    (done : List Nat) :
    (send_notification (some u) outcome priority done).records.length = 1
    ∧ ∀ r ∈ (send_notification (some u) outcome priority done).records,
        (r.status = NStatus.sent
          ↔ (send_notification (some u) outcome priority done).ok = true)
        ∧ (r.status = NStatus.failed
          ↔ (send_notification (some u) outcome priority done).ok = false)
        ∧ ¬(r.status = NStatus.pending) := by
  unfold send_notification
  cases h : first_success u outcome (priority.getD ["telegram", "email", "sms"]) done with
  | none =>
    simp only [h]
    simp [failed_record]
  | some pr =>
    obtain ⟨name, r⟩ := pr
    simp only [h]
    simp [sent_record]

end Notifications
